import Mathlib

/-
  Verification development for the Smart Home Energy Management simulation
  (sensors.py and simulation.py).

  Embedding conventions:
  * Python floats are modelled as exact rationals (ℚ) where the code only
    compares and adds finite decimal literals (hours, probabilities, random
    draws), and as real numbers (ℝ) where transcendental functions
    (math.sin, math.cos) enter.
  * random.uniform / random.random / random.randint draws are explicit
    parameters of the functions that consume them.
  * Python round(x, n) is modelled as round-to-n-decimals, and int(x) as
    truncation toward zero.
-/

namespace SmartHome

/-- Python round(x, 2) on reals: round to 2 decimal digits. -/
noncomputable def round2 (x : ℝ) : ℝ := ((round (x * 100) : ℤ) : ℝ) / 100

/-- Python round(x, 3) on rationals: round to 3 decimal digits. -/
def round3q (x : ℚ) : ℚ := ((round (x * 1000) : ℤ) : ℚ) / 1000

/-- Python round(x, 1) on rationals: round to 1 decimal digit. -/
def round1q (x : ℚ) : ℚ := ((round (x * 10) : ℤ) : ℚ) / 10

/-- Python int(x): truncation toward zero. -/
noncomputable def pyInt (x : ℝ) : ℤ := if 0 ≤ x then ⌊x⌋ else ⌈x⌉

/-- Python x % y for positive y (used on floats): x - y * floor(x / y). -/
def qmod (x y : ℚ) : ℚ := x - y * ⌊x / y⌋

/-- A notification event, as built by each sensor read in sensors.py
(the sensor_data dictionary passed to notify_observers). -/
structure SensorData where
  sensor_type : String
  room : String
  value : ℝ
  hour : ℚ
  unit : Option String
  occupied : Option Bool

/-- PIRSensor mutable state: is_occupied and readings_until_reevaluate
(PIRSensor.__init__ sets False and 0). -/
structure PIRState where
  is_occupied : Bool
  readings_until_reevaluate : ℤ
  deriving DecidableEq

/-- PIRSensor.__init__: is_occupied = False, readings_until_reevaluate = 0. -/
def pirInit : PIRState := ⟨false, 0⟩

/-- PIRSensor._get_occupancy_probability: occupancy probability from
hour-of-day bands. -/
def getOccupancyProbability (hour : ℚ) : ℚ :=
  if 22 ≤ hour ∨ hour < 6 then 1/10
  else if 6 ≤ hour ∧ hour < 17 then 2/10
  else 8/10

/-- Result of one PIRSensor.read step: the returned value, the updated
state, and whether this read re-evaluated (re-rolled) occupancy, i.e.
took the readings_until_reevaluate <= 0 branch. -/
structure PIRStepResult where
  value : ℤ
  state : PIRState
  rerolled : Bool
  deriving DecidableEq

/-- The state-and-value part of PIRSensor.read: if the hold-counter is <= 0,
re-roll occupancy with the hour's probability (draw models random.random(),
dwell models random.randint(2, 8)); a positive roll sets the counter to the
dwell, a negative roll sets it to 1.  Otherwise decrement the counter and
keep is_occupied.  The returned value is 1 if is_occupied else 0. -/
def pirStep (s : PIRState) (hour draw : ℚ) (dwell : ℤ) : PIRStepResult :=
  if s.readings_until_reevaluate ≤ 0 then
    if draw < getOccupancyProbability hour then
      ⟨1, ⟨true, dwell⟩, true⟩
    else
      ⟨0, ⟨false, 1⟩, true⟩
  else
    ⟨if s.is_occupied then 1 else 0,
     ⟨s.is_occupied, s.readings_until_reevaluate - 1⟩, false⟩

/-- PIRSensor.read: pirStep plus the emitted notification event. -/
noncomputable def pirRead (room : String) (s : PIRState) (hour draw : ℚ)
    (dwell : ℤ) : PIRStepResult × SensorData :=
  let r := pirStep s hour draw dwell
  (r, ⟨"pir", room, (r.value : ℝ), hour, none, some r.state.is_occupied⟩)

/-- Iterated PIRSensor.read on a list of (hour, draw, dwell) inputs,
returning the per-read results and the final state. -/
def pirStepMany (s : PIRState) : List (ℚ × ℚ × ℤ) → List PIRStepResult × PIRState
  | [] => ([], s)
  | i :: rest =>
    let r := pirStep s i.1 i.2.1 i.2.2
    let t := pirStepMany r.state rest
    (r :: t.1, t.2)

/-- SensorSubject.register_observer: append the observer unless already
registered. -/
def register_observer {α : Type} [DecidableEq α] (observers : List α) (observer : α) :
    List α :=
  if observer ∈ observers then observers else observers ++ [observer]

/-- SensorSubject.unregister_observer: remove the observer if present
(list.remove removes the first occurrence; the membership guard makes the
absent case a no-op). -/
def unregister_observer {α : Type} [DecidableEq α] (observers : List α) (observer : α) :
    List α :=
  if observer ∈ observers then observers.erase observer else observers

/-- SensorSubject.notify_observers: deliver sensor_data to every registered
observer, in registration order; the result lists the deliveries made. -/
def notify_observers {α : Type} (observers : List α) (sensor_data : SensorData) :
    List (α × SensorData) :=
  observers.map (fun o => (o, sensor_data))

/-- TemperatureSensor.read, value part: base_temp plus a sine component of
amplitude (max_temp - min_temp) / 2 peaking at hour 14, plus a noise draw
(random.uniform(-0.5, 0.5)), clamped to [min_temp, max_temp] = [15, 45] and
rounded to 2 decimals. -/
noncomputable def tempReadValue (base_temp : ℝ) (hour : ℚ) (noise : ℝ) : ℝ :=
  let amplitude : ℝ := (45 - 15) / 2
  let sine_component := amplitude * Real.sin (((hour : ℝ) - 14) * Real.pi / 12)
  let temp := base_temp + sine_component + noise
  round2 (max 15 (min 45 temp))

/-- TemperatureSensor.read: the returned value plus the emitted event. -/
noncomputable def tempRead (base_temp : ℝ) (room : String) (hour : ℚ) (noise : ℝ) :
    ℝ × SensorData :=
  let v := tempReadValue base_temp hour noise
  (v, ⟨"temperature", room, v, hour, some "°C", none⟩)

/-- LDRSensor.read, raw brightness before clamping: dark floor plus noise
(random.uniform(-10, 10)) outside [6, 18]; a cosine daylight curve mapped to
[0, 1023] plus noise (random.uniform(-30, 30)) inside [6, 18].  The final
else branch of the source is unreachable for real hours. -/
noncomputable def lightRaw (hour : ℚ) (noise : ℝ) : ℝ :=
  if hour < 6 ∨ 18 < hour then 0 + noise
  else if 6 ≤ hour ∧ hour ≤ 18 then
    (Real.cos (((hour : ℝ) - 12) * Real.pi / 6) + 1) / 2 * 1023 + noise
  else 0

/-- LDRSensor.read, value part: the raw brightness clamped to
[min_brightness, max_brightness] = [0, 1023] and truncated to an integer. -/
noncomputable def lightReadValue (hour : ℚ) (noise : ℝ) : ℤ :=
  pyInt (max 0 (min 1023 (lightRaw hour noise)))

/-- LDRSensor.read: the returned value plus the emitted event. -/
noncomputable def lightRead (room : String) (hour : ℚ) (noise : ℝ) : ℤ × SensorData :=
  let v := lightReadValue hour noise
  (v, ⟨"ldr", room, (v : ℝ), hour, some "0-1023", none⟩)

/-- The random draws consumed by one RoomSensors.read_all call: the
temperature noise, the PIR occupancy draw and dwell draw, and the light
noise. -/
structure Draws where
  tempNoise : ℝ
  pirDraw : ℚ
  pirDwell : ℤ
  lightNoise : ℝ

/-- The readings dictionary returned by RoomSensors.read_all. -/
structure Snapshot where
  room : String
  hour : ℚ
  temperature : ℝ
  occupancy : ℤ
  light_level : ℤ

/-- Result of RoomSensors.read_all: the snapshot, the updated PIR state, and
the notification events emitted, in emission order. -/
structure ReadAllResult where
  snapshot : Snapshot
  pirState : PIRState
  events : List SensorData

/-- RoomSensors.read_all: read the temperature, PIR and LDR sensors in that
order, emitting one event each, and return the combined snapshot. -/
noncomputable def readAll (room : String) (base_temp : ℝ) (s : PIRState) (hour : ℚ)
    (d : Draws) : ReadAllResult :=
  let t := tempRead base_temp room hour d.tempNoise
  let p := pirRead room s hour d.pirDraw d.pirDwell
  let l := lightRead room hour d.lightNoise
  ⟨⟨room, hour, t.1, p.1.value, l.1⟩, p.1.state, [t.2, p.2, l.2]⟩

/-- SmartHomeSimulation.ROOMS: the fixed roster of (name, base_temperature). -/
noncomputable def ROOMS : List (String × ℝ) :=
  [("Living Room", 22), ("Bedroom", 18), ("Kitchen", 21), ("Study", 20)]

/-- Simulation state: the rooms (their static config and the PIR state of
their motion sensor) and the shared collector's list of logged readings.
The single SimulationLogger is registered as the one observer of every
sensor of every room, so each emitted event is appended to readings exactly
once. -/
structure SimState where
  rooms : List ((String × ℝ) × PIRState)
  readings : List SensorData

/-- SmartHomeSimulation.__init__: one room bundle per roster entry (fresh
PIR state) and an empty log. -/
noncomputable def initState : SimState :=
  ⟨ROOMS.map (fun rc => (rc, pirInit)), []⟩

/-- SmartHomeSimulation.get_simulated_hour: (step * 5 / 60) mod 24. -/
def getSimulatedHour (step : ℕ) : ℚ :=
  qmod ((step * 5 : ℚ) / 60) 24

/-- One simulation step's inner loop: read_all on every room in roster
order, threading PIR states and concatenating the emitted events.  ds
supplies the random draws of each room's read_all. -/
noncomputable def stepRooms (hour : ℚ) (ds : ℕ → Draws) :
    List ((String × ℝ) × PIRState) → List ((String × ℝ) × PIRState) × List SensorData
  | [] => ([], [])
  | (rc, s) :: rest =>
    let r := readAll rc.1 rc.2 s hour (ds 0)
    let t := stepRooms hour (fun n => ds (n + 1)) rest
    ((rc, r.pirState) :: t.1, r.events ++ t.2)

/-- SmartHomeSimulation.run_simulation main loop, first n steps: step i
reads all rooms at hour get_simulated_hour(i); the collector accumulates
every event.  draws supplies the random draws per step and room. -/
noncomputable def runSim (draws : ℕ → ℕ → Draws) : ℕ → SimState
  | 0 => initState
  | n + 1 =>
    let st := runSim draws n
    let t := stepRooms (getSimulatedHour n) (draws n) st.rooms
    ⟨t.1, st.readings ++ t.2⟩

/-- Python min over a list (junk value 0 on the empty list, which the
aggregation functions never reach thanks to their emptiness guard). -/
noncomputable def pyMinR : List ℝ → ℝ
  | [] => 0
  | v :: vs => vs.foldl min v

/-- Python max over a list of reals (junk 0 on the empty list). -/
noncomputable def pyMaxR : List ℝ → ℝ
  | [] => 0
  | v :: vs => vs.foldl max v

/-- Python min over a list of integers (junk 0 on the empty list). -/
def pyMinZ : List ℤ → ℤ
  | [] => 0
  | v :: vs => vs.foldl min v

/-- Python max over a list of integers (junk 0 on the empty list). -/
def pyMaxZ : List ℤ → ℤ
  | [] => 0
  | v :: vs => vs.foldl max v

/-- Statistics entry of SmartHomeSimulation._analyze_temperature. -/
structure TemperatureStats where
  readings : ℕ
  min : ℝ
  max : ℝ
  avg : ℝ
  range : ℝ

/-- Statistics entry of SmartHomeSimulation._analyze_occupancy. -/
structure OccupancyStats where
  readings : ℕ
  occupied_count : ℤ
  empty_count : ℤ
  occupancy_rate : ℚ

/-- Statistics entry of SmartHomeSimulation._analyze_light. -/
structure LightStats where
  readings : ℕ
  min : ℤ
  max : ℤ
  avg : ℚ
  range : ℤ

/-- SmartHomeSimulation._analyze_temperature on the extracted value list:
empty partition yields the empty entry (the source returns an empty dict);
otherwise count, min, max, avg rounded to 2 decimals, range rounded to 2
decimals. -/
noncomputable def analyzeTemperature (values : List ℝ) : Option TemperatureStats :=
  if values = [] then none
  else some ⟨values.length, pyMinR values, pyMaxR values,
    round2 (values.sum / values.length),
    round2 (pyMaxR values - pyMinR values)⟩

/-- SmartHomeSimulation._analyze_occupancy on the extracted value list:
empty partition yields the empty entry; otherwise occupied_count = sum,
empty_count = count - occupied_count, and rate = occupied_count / count
(guarded by count > 0) rounded to 3 decimals. -/
def analyzeOccupancy (values : List ℤ) : Option OccupancyStats :=
  if values = [] then none
  else
    let occupied_count := values.sum
    let total_count := values.length
    let occupancy_rate : ℚ :=
      if 0 < total_count then (occupied_count : ℚ) / (total_count : ℚ) else 0
    some ⟨total_count, occupied_count, (total_count : ℤ) - occupied_count,
      round3q occupancy_rate⟩

/-- SmartHomeSimulation._analyze_light on the extracted value list: empty
partition yields the empty entry; otherwise count, min, max, avg rounded to
1 decimal, integer range. -/
def analyzeLight (values : List ℤ) : Option LightStats :=
  if values = [] then none
  else some ⟨values.length, pyMinZ values, pyMaxZ values,
    round1q ((values.sum : ℚ) / (values.length : ℚ)),
    pyMaxZ values - pyMinZ values⟩

/-- Constant draw streams used to instantiate universally quantified draw
arguments in witnesses. -/
noncomputable def constDraws : ℕ → ℕ → Draws := fun _ _ => ⟨0, 0, 2, 0⟩

/-- Predicate selecting the logged events of room r and sensor kind k. -/
def evMatch (r k : String) (e : SensorData) : Bool :=
  decide (e.room = r ∧ e.sensor_type = k)

/-- Helper: from an occupied state whose hold-counter dominates the number of
remaining reads, every read returns 1 without re-rolling, is_occupied stays
true, and the counter decreases by one per read. -/
theorem pirStepMany_hold (ins : List (ℚ × ℚ × ℤ)) : ∀ s : PIRState,
    s.is_occupied = true →
    (ins.length : ℤ) ≤ s.readings_until_reevaluate →
    (∀ r ∈ (pirStepMany s ins).1,
        r.value = 1 ∧ r.rerolled = false ∧ r.state.is_occupied = true) ∧
    (pirStepMany s ins).2.is_occupied = true ∧
    (pirStepMany s ins).2.readings_until_reevaluate =
      s.readings_until_reevaluate - ins.length := by
  induction ins with
  | nil =>
    intro s hocc _
    refine ⟨by intro r hr; simp [pirStepMany] at hr, hocc, by simp [pirStepMany]⟩
  | cons i rest ih =>
    intro s hocc hlen
    have hpos : 0 < s.readings_until_reevaluate := by
      have h1 : ((i :: rest).length : ℤ) = (rest.length : ℤ) + 1 := by simp
      omega
    have hstep : pirStep s i.1 i.2.1 i.2.2 =
        ⟨1, ⟨s.is_occupied, s.readings_until_reevaluate - 1⟩, false⟩ := by
      rw [pirStep, if_neg (by omega)]
      simp [hocc]
    have hlen' : ((rest.length : ℤ)) ≤ s.readings_until_reevaluate - 1 := by
      have : ((i :: rest).length : ℤ) = rest.length + 1 := by
        simp
      omega
    have ihr := ih ⟨s.is_occupied, s.readings_until_reevaluate - 1⟩
      (by simpa using hocc) (by simpa using hlen')
    constructor
    · intro r hr
      simp only [pirStepMany, hstep] at hr
      rcases List.mem_cons.mp hr with h | h
      · subst h; exact ⟨rfl, rfl, by simpa using hocc⟩
      · exact ihr.1 r h
    · constructor
      · simp only [pirStepMany, hstep]
        exact ihr.2.1
      · simp only [pirStepMany, hstep]
        rw [ihr.2.2]
        simp
        omega


/-- Helper: the re-roll branch of pirStep with an occupied draw. -/
theorem pirStep_reroll_occupied (s : PIRState) (hour draw : ℚ) (dwell : ℤ)
    (hc : s.readings_until_reevaluate ≤ 0)
    (h : draw < getOccupancyProbability hour) :
    pirStep s hour draw dwell = ⟨1, ⟨true, dwell⟩, true⟩ := by
  rw [pirStep, if_pos hc, if_pos h]

/-- Helper: the re-roll branch of pirStep with a not-occupied draw. -/
theorem pirStep_reroll_empty (s : PIRState) (hour draw : ℚ) (dwell : ℤ)
    (hc : s.readings_until_reevaluate ≤ 0)
    (h : ¬ draw < getOccupancyProbability hour) :
    pirStep s hour draw dwell = ⟨0, ⟨false, 1⟩, true⟩ := by
  rw [pirStep, if_pos hc, if_neg h]

/-- Helper: the hold branch of pirStep (positive counter). -/
theorem pirStep_hold (s : PIRState) (hour draw : ℚ) (dwell : ℤ)
    (hc : 0 < s.readings_until_reevaluate) :
    pirStep s hour draw dwell =
      ⟨if s.is_occupied then 1 else 0,
       ⟨s.is_occupied, s.readings_until_reevaluate - 1⟩, false⟩ := by
  rw [pirStep, if_neg (by omega)]

/-- Helper: whatever the inputs, a read from a state with counter <= 0
re-evaluates. -/
theorem pirStep_rerolls_of_nonpos (s : PIRState) (hour draw : ℚ) (dwell : ℤ)
    (hc : s.readings_until_reevaluate ≤ 0) :
    (pirStep s hour draw dwell).rerolled = true := by
  by_cases h : draw < getOccupancyProbability hour
  · rw [pirStep_reroll_occupied s hour draw dwell hc h]
  · rw [pirStep_reroll_empty s hour draw dwell hc h]

/-- C1, as stated, is false on the code: at the concrete state
(is_occupied = false, hold-counter = 0) with hour 0, draw 1/2 and dwell 5,
the read re-evaluates (1/2 is not below the night probability 1/10, so the
draw yields not-occupied) and sets the hold-counter to 1, but the very next
read does NOT re-evaluate: it takes the decrement branch. -/
theorem pir_reroll_next_counterexample :
    (pirStep ⟨false, 0⟩ 0 (1/2) 5).rerolled = true ∧
    ¬ ((1:ℚ)/2 < getOccupancyProbability 0) ∧
    (pirStep ⟨false, 0⟩ 0 (1/2) 5).state = ⟨false, 1⟩ ∧
    (pirStep ((pirStep ⟨false, 0⟩ 0 (1/2) 5).state) 0 (1/2) 5).rerolled = false := by
  have hno : ¬ ((1:ℚ)/2 < getOccupancyProbability 0) := by
    norm_num [getOccupancyProbability]
  have h1 : pirStep ⟨false, 0⟩ 0 (1/2) 5 = ⟨0, ⟨false, 1⟩, true⟩ :=
    pirStep_reroll_empty _ _ _ _ (by norm_num) hno
  have h2 : pirStep (⟨false, 1⟩ : PIRState) 0 (1/2) 5 = ⟨0, ⟨false, 0⟩, false⟩ := by
    rw [pirStep_hold _ _ _ _ (by norm_num)]
    rfl
  refine ⟨by rw [h1], hno, by rw [h1], ?_⟩
  rw [h1]
  show (pirStep (⟨false, 1⟩ : PIRState) 0 (1/2) 5).rerolled = false
  rw [h2]

/-- C1 (amended): when a read re-evaluates occupancy (hold-counter <= 0)
and the random draw yields not-occupied, the hold-counter is set to 1; the
very next read does not re-evaluate — it decrements the counter to 0 and
returns 0 with is_occupied unchanged — and the second subsequent read
re-evaluates the occupancy probability again. -/
theorem pir_not_occupied_reroll_after_two (s : PIRState) (hour draw : ℚ) (dwell : ℤ)
    (hc : s.readings_until_reevaluate ≤ 0)
    (hno : ¬ draw < getOccupancyProbability hour)
    (hour2 draw2 : ℚ) (dwell2 : ℤ) (hour3 draw3 : ℚ) (dwell3 : ℤ) :
    (pirStep s hour draw dwell).rerolled = true ∧
    (pirStep s hour draw dwell).value = 0 ∧
    (pirStep s hour draw dwell).state = ⟨false, 1⟩ ∧
    (pirStep (pirStep s hour draw dwell).state hour2 draw2 dwell2).rerolled = false ∧
    (pirStep (pirStep s hour draw dwell).state hour2 draw2 dwell2).value = 0 ∧
    (pirStep (pirStep s hour draw dwell).state hour2 draw2 dwell2).state = ⟨false, 0⟩ ∧
    (pirStep (pirStep (pirStep s hour draw dwell).state hour2 draw2 dwell2).state
      hour3 draw3 dwell3).rerolled = true := by
  have h1 : pirStep s hour draw dwell = ⟨0, ⟨false, 1⟩, true⟩ :=
    pirStep_reroll_empty _ _ _ _ hc hno
  rw [h1]
  have h2 : pirStep (⟨false, 1⟩ : PIRState) hour2 draw2 dwell2 = ⟨0, ⟨false, 0⟩, false⟩ := by
    rw [pirStep_hold _ _ _ _ (by norm_num)]
    rfl
  show _ = true ∧ _ = 0 ∧ _ = _ ∧
    (pirStep (⟨false, 1⟩ : PIRState) hour2 draw2 dwell2).rerolled = false ∧
    (pirStep (⟨false, 1⟩ : PIRState) hour2 draw2 dwell2).value = 0 ∧
    (pirStep (⟨false, 1⟩ : PIRState) hour2 draw2 dwell2).state = ⟨false, 0⟩ ∧
    (pirStep (pirStep (⟨false, 1⟩ : PIRState) hour2 draw2 dwell2).state
      hour3 draw3 dwell3).rerolled = true
  rw [h2]
  exact ⟨rfl, rfl, rfl, rfl, rfl, rfl,
    pirStep_rerolls_of_nonpos _ _ _ _ (by norm_num)⟩

/-- Witness for the amended C1 at a concrete input. -/
theorem pir_not_occupied_reroll_after_two_witness :
    (pirStep ⟨false, 0⟩ 0 (1/2) 5).state = ⟨false, 1⟩ ∧
    (pirStep (pirStep ⟨false, 0⟩ 0 (1/2) 5).state 0 (1/2) 5).rerolled = false ∧
    (pirStep (pirStep (pirStep ⟨false, 0⟩ 0 (1/2) 5).state 0 (1/2) 5).state
      0 (1/2) 5).rerolled = true := by
  have h := pir_not_occupied_reroll_after_two ⟨false, 0⟩ 0 (1/2) 5 (by norm_num)
    (by norm_num [getOccupancyProbability]) 0 (1/2) 5 0 (1/2) 5
  exact ⟨h.2.2.1, h.2.2.2.1, h.2.2.2.2.2.2⟩

/-- C2: once a read re-evaluates occupancy (hold-counter <= 0), the draw
yields occupied (draw < probability) and the dwell k in [2, 8] is chosen,
that read returns 1, sets is_occupied and the hold-counter to k, and every
read of any following sequence of at most k - 1 reads also returns 1 with
is_occupied still true and no re-roll occurring in any of them. -/
theorem pir_occupied_persistence (s : PIRState) (hour draw : ℚ) (dwell : ℤ)
    (hc : s.readings_until_reevaluate ≤ 0)
    (hocc : draw < getOccupancyProbability hour)
    (hk2 : 2 ≤ dwell) (hk8 : dwell ≤ 8)
    (ins : List (ℚ × ℚ × ℤ)) (hlen : (ins.length : ℤ) ≤ dwell - 1) :
    (pirStep s hour draw dwell).value = 1 ∧
    (pirStep s hour draw dwell).state.is_occupied = true ∧
    (pirStep s hour draw dwell).state.readings_until_reevaluate = dwell ∧
    (∀ r ∈ (pirStepMany (pirStep s hour draw dwell).state ins).1,
      r.value = 1 ∧ r.rerolled = false ∧ r.state.is_occupied = true) ∧
    (pirStepMany (pirStep s hour draw dwell).state ins).2.is_occupied = true := by
  have h1 : pirStep s hour draw dwell = ⟨1, ⟨true, dwell⟩, true⟩ :=
    pirStep_reroll_occupied _ _ _ _ hc hocc
  rw [h1]
  have hm := pirStepMany_hold ins ⟨true, dwell⟩ rfl (by dsimp only; omega)
  exact ⟨rfl, rfl, rfl, hm.1, hm.2.1⟩

/-- Witness for C2 at a concrete input: evening hour 17 (probability 8/10),
draw 1/2, dwell 2, one follow-up read. -/
theorem pir_occupied_persistence_witness :
    (pirStep ⟨false, 0⟩ 17 (1/2) 2).value = 1 ∧
    (pirStep ⟨false, 0⟩ 17 (1/2) 2).state.is_occupied = true ∧
    (pirStep ⟨false, 0⟩ 17 (1/2) 2).state.readings_until_reevaluate = 2 ∧
    (∀ r ∈ (pirStepMany (pirStep ⟨false, 0⟩ 17 (1/2) 2).state [(17, 1/2, 2)]).1,
      r.value = 1 ∧ r.rerolled = false ∧ r.state.is_occupied = true) := by
  have h := pir_occupied_persistence ⟨false, 0⟩ 17 (1/2) 2 (by norm_num)
    (by norm_num [getOccupancyProbability]) (by norm_num) (by norm_num)
    [(17, 1/2, 2)] (by norm_num)
  exact ⟨h.1, h.2.1, h.2.2.1, h.2.2.2.1⟩

/-- C8: the PIR invariant readings_until_reevaluate >= 0 holds at
initialisation and is preserved by every read whose dwell draw lies in
[2, 8]; moreover the counter is only decremented (without re-roll) when it
is strictly positive. -/
theorem pir_counter_invariant (s : PIRState) (hour draw : ℚ) (dwell : ℤ)
    (hk2 : 2 ≤ dwell) (hk8 : dwell ≤ 8)
    (hinv : 0 ≤ s.readings_until_reevaluate) :
    0 ≤ pirInit.readings_until_reevaluate ∧
    0 ≤ (pirStep s hour draw dwell).state.readings_until_reevaluate ∧
    (0 < s.readings_until_reevaluate →
      (pirStep s hour draw dwell).rerolled = false ∧
      (pirStep s hour draw dwell).state.readings_until_reevaluate =
        s.readings_until_reevaluate - 1) := by
  refine ⟨by norm_num [pirInit], ?_, ?_⟩
  · by_cases hc : s.readings_until_reevaluate ≤ 0
    · by_cases h : draw < getOccupancyProbability hour
      · rw [pirStep_reroll_occupied _ _ _ _ hc h]; dsimp only; omega
      · rw [pirStep_reroll_empty _ _ _ _ hc h]; norm_num
    · rw [pirStep_hold _ _ _ _ (by omega)]; dsimp only; omega
  · intro hpos
    rw [pirStep_hold _ _ _ _ hpos]
    exact ⟨rfl, rfl⟩

/-- Witness for C8 at a concrete input. -/
theorem pir_counter_invariant_witness :
    0 ≤ pirInit.readings_until_reevaluate ∧
    0 ≤ (pirStep ⟨true, 3⟩ 12 (1/2) 4).state.readings_until_reevaluate ∧
    (pirStep ⟨true, 3⟩ 12 (1/2) 4).state.readings_until_reevaluate = 3 - 1 := by
  have h := pir_counter_invariant ⟨true, 3⟩ 12 (1/2) 4 (by norm_num) (by norm_num)
    (by norm_num)
  exact ⟨h.1, h.2.1, (h.2.2 (by norm_num)).2⟩

/-- C5: register_observer is idempotent (so a doubly registered listener is
held once and notified once per event), unregister_observer of an absent
listener is a no-op, and notify_observers delivers the event to every
currently registered listener, in registration order. -/
theorem observer_registry_spec {α : Type} [DecidableEq α] (l : List α) (o : α)
    (ev : SensorData) :
    register_observer (register_observer l o) o = register_observer l o ∧
    (o ∉ l → unregister_observer l o = l) ∧
    (notify_observers l ev).map Prod.fst = l ∧
    (∀ p ∈ notify_observers l ev, p.2 = ev) ∧
    (l.Nodup → (register_observer (register_observer l o) o).count o = 1) := by
  have hidem : register_observer (register_observer l o) o = register_observer l o := by
    by_cases h : o ∈ l
    · simp [register_observer, h]
    · have h2 : o ∈ l ++ [o] := by simp
      simp [register_observer, h, h2]
  refine ⟨hidem, ?_, ?_, ?_, ?_⟩
  · intro h
    simp [unregister_observer, h]
  · simp only [notify_observers, List.map_map]
    have hcomp : (Prod.fst ∘ fun o : α => (o, ev)) = id := by
      funext a
      rfl
    rw [hcomp, List.map_id]
  · intro p hp
    simp only [notify_observers, List.mem_map] at hp
    obtain ⟨a, _, ha⟩ := hp
    rw [← ha]
  · intro hnd
    rw [hidem]
    by_cases h : o ∈ l
    · have e : register_observer l o = l := by simp [register_observer, h]
      rw [e]
      exact List.count_eq_one_of_mem hnd h
    · have e : register_observer l o = l ++ [o] := by simp [register_observer, h]
      rw [e, List.count_append]
      rw [List.count_eq_zero_of_not_mem h]
      simp

/-- Witness for C5 at a concrete registry. -/
theorem observer_registry_spec_witness :
    register_observer (register_observer ([0, 1] : List ℕ) 2) 2 =
      register_observer [0, 1] 2 ∧
    unregister_observer ([0, 1] : List ℕ) 2 = [0, 1] ∧
    (register_observer (register_observer ([0, 1] : List ℕ) 2) 2).count 2 = 1 := by
  have h := observer_registry_spec ([0, 1] : List ℕ) 2
    ⟨"temperature", "Room", 0, 0, none, none⟩
  exact ⟨h.1, h.2.1 (by decide), h.2.2.2.2 (by decide)⟩

/-- Helper: rounding to 2 decimals keeps a value of [15, 45] in [15, 45]. -/
theorem round2_bounds (x : ℝ) (h1 : 15 ≤ x) (h2 : x ≤ 45) :
    15 ≤ round2 x ∧ round2 x ≤ 45 := by
  have hlo : (1500 : ℤ) ≤ round (x * 100) := by
    rw [round_eq, Int.le_floor]
    push_cast
    linarith
  have hhi : round (x * 100) ≤ 4500 := by
    rw [round_eq]
    have h3 : ⌊x * 100 + 1/2⌋ < 4501 := by
      rw [Int.floor_lt]
      push_cast
      linarith
    omega
  have h1500 : (1500 : ℝ) ≤ ((round (x * 100) : ℤ) : ℝ) := by exact_mod_cast hlo
  have h4500 : ((round (x * 100) : ℤ) : ℝ) ≤ 4500 := by exact_mod_cast hhi
  constructor
  · simp only [round2]
    linarith
  · simp only [round2]
    linarith

/-- C3: for every hour in [0, 24), base temperature and noise draw in
[-0.5, 0.5], TemperatureSensor.read returns base_temperature plus
15 * sin((hour - 14) * pi / 12) plus noise, clamped to [15, 45] and rounded
to 2 decimals; in particular the returned value lies in [15, 45]. -/
theorem temperature_read_spec (base_temp : ℝ) (hour : ℚ) (noise : ℝ)
    (h0 : 0 ≤ hour) (h24 : hour < 24)
    (hn1 : -(1/2) ≤ noise) (hn2 : noise ≤ 1/2) :
    tempReadValue base_temp hour noise =
      round2 (max 15 (min 45 (base_temp +
        15 * Real.sin (((hour : ℝ) - 14) * Real.pi / 12) + noise))) ∧
    15 ≤ tempReadValue base_temp hour noise ∧
    tempReadValue base_temp hour noise ≤ 45 := by
  have heq : tempReadValue base_temp hour noise =
      round2 (max 15 (min 45 (base_temp +
        15 * Real.sin (((hour : ℝ) - 14) * Real.pi / 12) + noise))) := by
    simp only [tempReadValue]
    norm_num
  have hb := round2_bounds (max 15 (min 45 (base_temp +
      15 * Real.sin (((hour : ℝ) - 14) * Real.pi / 12) + noise)))
    (le_max_left _ _) (max_le (by norm_num) (min_le_left _ _))
  rw [heq]
  exact ⟨rfl, hb.1, hb.2⟩

/-- Witness for C3 at a concrete input. -/
theorem temperature_read_spec_witness :
    15 ≤ tempReadValue 20 14 0 ∧ tempReadValue 20 14 0 ≤ 45 := by
  have h := temperature_read_spec 20 14 0 (by norm_num) (by norm_num)
    (by norm_num) (by norm_num)
  exact ⟨h.2.1, h.2.2⟩

/-- Helper: truncation keeps a value of [0, 1023] in [0, 1023]. -/
theorem pyInt_bounds (x : ℝ) (h0 : 0 ≤ x) (h1 : x ≤ 1023) :
    0 ≤ pyInt x ∧ pyInt x ≤ 1023 := by
  rw [pyInt, if_pos h0]
  constructor
  · exact Int.le_floor.mpr (by exact_mod_cast h0)
  · have h2 : ⌊x⌋ < 1024 := by
      rw [Int.floor_lt]
      push_cast
      linarith
    omega

/-- C4: LDRSensor.read returns an integer in [0, 1023]; outside the
daylight window (hour < 6 or hour > 18) the raw value is the dark floor 0
plus a noise draw in [-10, 10], otherwise the cosine daylight curve
(cos((hour - 12) * pi / 6) + 1) / 2 * 1023 plus a noise draw in [-30, 30];
the raw value is clamped to [0, 1023] and truncated toward zero. -/
theorem light_read_spec (hour : ℚ) (noise : ℝ) :
    (hour < 6 ∨ 18 < hour → -10 ≤ noise → noise ≤ 10 →
      lightRaw hour noise = 0 + noise) ∧
    (6 ≤ hour → hour ≤ 18 → -30 ≤ noise → noise ≤ 30 →
      lightRaw hour noise =
        (Real.cos (((hour : ℝ) - 12) * Real.pi / 6) + 1) / 2 * 1023 + noise) ∧
    lightReadValue hour noise = pyInt (max 0 (min 1023 (lightRaw hour noise))) ∧
    0 ≤ lightReadValue hour noise ∧ lightReadValue hour noise ≤ 1023 := by
  have hb := pyInt_bounds (max 0 (min 1023 (lightRaw hour noise)))
    (le_max_left _ _) (max_le (by norm_num) (min_le_left _ _))
  refine ⟨?_, ?_, rfl, hb.1, hb.2⟩
  · intro h _ _
    rw [lightRaw, if_pos h]
  · intro h6 h18 _ _
    rw [lightRaw, if_neg (by push_neg; exact ⟨h6, h18⟩), if_pos ⟨h6, h18⟩]

/-- Witness for C4 at a concrete input (night hour 0, noise 5). -/
theorem light_read_spec_witness :
    lightRaw 0 5 = 0 + 5 ∧ 0 ≤ lightReadValue 0 5 ∧ lightReadValue 0 5 ≤ 1023 := by
  have h := light_read_spec 0 5
  exact ⟨h.1 (by norm_num) (by norm_num) (by norm_num), h.2.2.2.1, h.2.2.2.2⟩

/-- C6: read_all reads the three sensors in the fixed order temperature,
occupancy (pir), light (ldr), emits exactly 3 notification events — one per
sensor, in that order — and returns a snapshot whose room, hour,
temperature, occupancy and light_level fields come from the room identity,
the hour, and the three sensor reads respectively. -/
theorem read_all_order_spec (room : String) (base_temp : ℝ) (s : PIRState)
    (hour : ℚ) (d : Draws) :
    (readAll room base_temp s hour d).events.length = 3 ∧
    (readAll room base_temp s hour d).events.map SensorData.sensor_type =
      ["temperature", "pir", "ldr"] ∧
    (readAll room base_temp s hour d).events =
      [(tempRead base_temp room hour d.tempNoise).2,
       (pirRead room s hour d.pirDraw d.pirDwell).2,
       (lightRead room hour d.lightNoise).2] ∧
    (readAll room base_temp s hour d).snapshot.room = room ∧
    (readAll room base_temp s hour d).snapshot.hour = hour ∧
    (readAll room base_temp s hour d).snapshot.temperature =
      (tempRead base_temp room hour d.tempNoise).1 ∧
    (readAll room base_temp s hour d).snapshot.occupancy =
      (pirStep s hour d.pirDraw d.pirDwell).value ∧
    (readAll room base_temp s hour d).snapshot.light_level =
      (lightRead room hour d.lightNoise).1 := by
  exact ⟨rfl, rfl, rfl, rfl, rfl, rfl, rfl, rfl⟩

/-- C10: the snapshot returned by read_all is consistent with the three
events emitted during the call: the temperature, occupancy and light_level
fields equal the value fields of the temperature, pir and ldr events, and
every emitted event carries the snapshot's room name and hour. -/
theorem read_all_snapshot_consistent (room : String) (base_temp : ℝ) (s : PIRState)
    (hour : ℚ) (d : Draws) :
    ∃ te pe le,
      (readAll room base_temp s hour d).events = [te, pe, le] ∧
      te.sensor_type = "temperature" ∧ pe.sensor_type = "pir" ∧
      le.sensor_type = "ldr" ∧
      te.value = (readAll room base_temp s hour d).snapshot.temperature ∧
      pe.value = ((readAll room base_temp s hour d).snapshot.occupancy : ℝ) ∧
      le.value = ((readAll room base_temp s hour d).snapshot.light_level : ℝ) ∧
      (∀ e ∈ (readAll room base_temp s hour d).events,
        e.room = (readAll room base_temp s hour d).snapshot.room ∧
        e.hour = (readAll room base_temp s hour d).snapshot.hour) := by
  refine ⟨_, _, _, rfl, rfl, rfl, rfl, rfl, rfl, rfl, ?_⟩
  intro e he
  have hev : (readAll room base_temp s hour d).events =
      [(tempRead base_temp room hour d.tempNoise).2,
       (pirRead room s hour d.pirDraw d.pirDwell).2,
       (lightRead room hour d.lightNoise).2] := rfl
  rw [hev] at he
  simp only [List.mem_cons, List.not_mem_nil, or_false] at he
  rcases he with h | h | h <;> subst h
  · exact ⟨rfl, rfl⟩
  · exact ⟨rfl, rfl⟩
  · exact ⟨rfl, rfl⟩

/-- C9: each per-kind aggregation function maps an empty partition to the
empty statistics entry; on a non-empty partition the occupancy statistics
satisfy occupied_count = sum of values, readings = count,
empty_count = count - occupied_count, the divisor count is positive (no
division by zero), and rate = occupied_count / count rounded to 3
decimals. -/
theorem analyze_empty_and_occupancy_spec :
    analyzeTemperature [] = none ∧ analyzeOccupancy [] = none ∧
    analyzeLight [] = none ∧
    ∀ values : List ℤ, values ≠ [] →
      ∃ st, analyzeOccupancy values = some st ∧
        st.readings = values.length ∧
        st.occupied_count = values.sum ∧
        st.empty_count = (values.length : ℤ) - values.sum ∧
        0 < values.length ∧
        st.occupancy_rate = round3q ((values.sum : ℚ) / (values.length : ℚ)) := by
  refine ⟨rfl, rfl, rfl, ?_⟩
  intro values hne
  have hpos : 0 < values.length := List.length_pos.mpr hne
  refine ⟨⟨values.length, values.sum, (values.length : ℤ) - values.sum,
    round3q ((values.sum : ℚ) / (values.length : ℚ))⟩, ?_, rfl, rfl, rfl, hpos, rfl⟩
  rw [analyzeOccupancy, if_neg hne]
  simp only [if_pos hpos]

/-- Witness for C9 at a concrete non-empty partition. -/
theorem analyze_empty_and_occupancy_spec_witness :
    analyzeOccupancy [] = none ∧
    ∃ st, analyzeOccupancy [1, 0, 1] = some st ∧ st.occupied_count = 2 := by
  obtain ⟨st, hst, _, hsum, _⟩ :=
    analyze_empty_and_occupancy_spec.2.2.2 [1, 0, 1] (by decide)
  exact ⟨analyze_empty_and_occupancy_spec.2.1, st, hst, by rw [hsum]; decide⟩

/-- Helper: stepRooms preserves each room's static configuration. -/
theorem stepRooms_fst (hour : ℚ) :
    ∀ (rs : List ((String × ℝ) × PIRState)) (ds : ℕ → Draws),
      (stepRooms hour ds rs).1.map Prod.fst = rs.map Prod.fst := by
  intro rs
  induction rs with
  | nil => intro ds; rfl
  | cons x rest ih =>
    intro ds
    obtain ⟨rc, s⟩ := x
    simp only [stepRooms, List.map_cons]
    rw [ih]

/-- Helper: one simulation step emits exactly 3 events per room. -/
theorem stepRooms_len (hour : ℚ) :
    ∀ (rs : List ((String × ℝ) × PIRState)) (ds : ℕ → Draws),
      (stepRooms hour ds rs).2.length = 3 * rs.length := by
  intro rs
  induction rs with
  | nil => intro ds; rfl
  | cons x rest ih =>
    intro ds
    obtain ⟨rc, s⟩ := x
    simp only [stepRooms, List.length_append, List.length_cons]
    rw [ih]
    have h3 : (readAll rc.1 rc.2 s hour (ds 0)).events.length = 3 := rfl
    rw [h3]
    ring

/-- Helper: among the three events of one read_all call, exactly one matches
a given room name and sensor kind when the kind is one of the three sensor
kinds and the room name matches; none otherwise. -/
theorem readAll_events_countP (r k room : String) (base : ℝ) (s : PIRState)
    (hour : ℚ) (d : Draws)
    (hk : k = "temperature" ∨ k = "pir" ∨ k = "ldr") :
    (readAll room base s hour d).events.countP (evMatch r k) =
      if room = r then 1 else 0 := by
  have hev : (readAll room base s hour d).events =
      [(tempRead base room hour d.tempNoise).2,
       (pirRead room s hour d.pirDraw d.pirDwell).2,
       (lightRead room hour d.lightNoise).2] := rfl
  rw [hev]
  by_cases hr : room = r
  · rcases hk with hk | hk | hk <;> subst hk <;>
      simp [List.countP_cons, evMatch, tempRead, pirRead, lightRead, hr]
  · rcases hk with hk | hk | hk <;> subst hk <;>
      simp [List.countP_cons, evMatch, tempRead, pirRead, lightRead, hr]

/-- Helper: one simulation step emits exactly one event of each sensor kind
per matching room name. -/
theorem stepRooms_countP (hour : ℚ) (r k : String)
    (hk : k = "temperature" ∨ k = "pir" ∨ k = "ldr") :
    ∀ (rs : List ((String × ℝ) × PIRState)) (ds : ℕ → Draws),
      (stepRooms hour ds rs).2.countP (evMatch r k) =
        (rs.map Prod.fst).countP (fun c => decide (c.1 = r)) := by
  intro rs
  induction rs with
  | nil => intro ds; rfl
  | cons x rest ih =>
    intro ds
    obtain ⟨rc, s⟩ := x
    simp only [stepRooms, List.countP_append, List.map_cons, List.countP_cons]
    rw [ih, readAll_events_countP r k rc.1 rc.2 s hour (ds 0) hk]
    by_cases hr : rc.1 = r
    · simp [hr]
      omega
    · simp [hr]

/-- Helper: the equational unfolding of one runSim step. -/
theorem runSim_succ (draws : ℕ → ℕ → Draws) (n : ℕ) :
    runSim draws (n + 1) =
      ⟨(stepRooms (getSimulatedHour n) (draws n) (runSim draws n).rooms).1,
       (runSim draws n).readings ++
         (stepRooms (getSimulatedHour n) (draws n) (runSim draws n).rooms).2⟩ := rfl

/-- Helper: the room roster of the running simulation never changes. -/
theorem runSim_rooms_map_fst (draws : ℕ → ℕ → Draws) :
    ∀ n, (runSim draws n).rooms.map Prod.fst = ROOMS := by
  intro n
  induction n with
  | zero =>
    show (ROOMS.map (fun rc => (rc, pirInit))).map Prod.fst = ROOMS
    rw [List.map_map]
    have hcomp : (Prod.fst ∘ fun rc : String × ℝ => (rc, pirInit)) = id := by
      funext a
      rfl
    rw [hcomp, List.map_id]
  | succ n ih =>
    rw [runSim_succ]
    show (stepRooms (getSimulatedHour n) (draws n) (runSim draws n).rooms).1.map
      Prod.fst = ROOMS
    rw [stepRooms_fst, ih]

/-- Helper: after n steps the collector holds 12 * n events. -/
theorem runSim_len (draws : ℕ → ℕ → Draws) :
    ∀ n, (runSim draws n).readings.length = 12 * n := by
  intro n
  induction n with
  | zero => rfl
  | succ n ih =>
    rw [runSim_succ]
    show ((runSim draws n).readings ++ _).length = 12 * (n + 1)
    rw [List.length_append, ih, stepRooms_len]
    have h4 : (runSim draws n).rooms.length = 4 := by
      have h := congrArg List.length (runSim_rooms_map_fst draws n)
      rw [List.length_map] at h
      exact h
    rw [h4]
    ring

/-- Helper: after n steps the collector holds exactly n events of each
sensor kind for each room whose name occurs once in the roster. -/
theorem runSim_countP (draws : ℕ → ℕ → Draws) (r k : String)
    (hk : k = "temperature" ∨ k = "pir" ∨ k = "ldr")
    (hr1 : ROOMS.countP (fun c => decide (c.1 = r)) = 1) :
    ∀ n, (runSim draws n).readings.countP (evMatch r k) = n := by
  intro n
  induction n with
  | zero => rfl
  | succ n ih =>
    rw [runSim_succ]
    show ((runSim draws n).readings ++ _).countP (evMatch r k) = n + 1
    rw [List.countP_append, ih, stepRooms_countP _ _ _ hk, runSim_rooms_map_fst, hr1]

/-- C7: running the full 288-step, 4-room simulation with the single shared
collector registered on every sensor collects exactly 288 * 4 * 3 = 3456
events, with 288 events of each sensor kind per room, regardless of the
random draws. -/
theorem simulation_event_counts (draws : ℕ → ℕ → Draws) :
    (runSim draws 288).readings.length = 288 * 4 * 3 ∧
    ∀ room, room ∈ ROOMS.map Prod.fst →
      ∀ k, k = "temperature" ∨ k = "pir" ∨ k = "ldr" →
        (runSim draws 288).readings.countP (evMatch room k) = 288 := by
  constructor
  · rw [runSim_len]
  · intro room hroom k hk
    have hnames : ROOMS.map Prod.fst = ["Living Room", "Bedroom", "Kitchen", "Study"] :=
      rfl
    rw [hnames] at hroom
    simp only [List.mem_cons, List.not_mem_nil, or_false] at hroom
    rcases hroom with h | h | h | h <;> subst h <;>
      exact runSim_countP draws _ k hk (by decide) 288

/-- Witness for C7 with a concrete draw stream, room and kind. -/
theorem simulation_event_counts_witness :
    (runSim constDraws 288).readings.length = 288 * 4 * 3 ∧
    (runSim constDraws 288).readings.countP (evMatch "Living Room" "pir") = 288 := by
  refine ⟨(simulation_event_counts constDraws).1, ?_⟩
  refine (simulation_event_counts constDraws).2 "Living Room" ?_ "pir" (Or.inr (Or.inl rfl))
  rw [show ROOMS.map Prod.fst = ["Living Room", "Bedroom", "Kitchen", "Study"] from rfl]
  exact List.mem_cons_self _ _
